import Mathlib

/-!
Shallow embedding of the metrics computations of
`khelp_ultimate_dashboard.py` (the KHELP strategic dashboard), together
with theorems checking the natural-language specification against it.

Conventions of the embedding:
* a pandas `DataFrame` is a list of typed rows; row order is the frame
  row order;
* integer columns are `Int`, float columns are `ℚ` (exact rationals stand
  in for IEEE doubles; none of the properties below depends on rounding
  error), string columns are `String`;
* a Python exception is an `Except PyErr` error value; an `Option` is used
  where a value may be absent without an exception;
* the input mapping `data` built by `load_comprehensive_data` is a
  structure of `Option` datasets: `none` models a key absent from the
  dict (its file was missing).
-/

namespace Khelp

/-- Python exceptions that the modelled code paths can raise. -/
inductive PyErr where
  | indexError
  | valueError
  | nameError
deriving DecidableEq, Repr

instance {ε α : Type} [DecidableEq ε] [DecidableEq α] :
    DecidableEq (Except ε α) := fun x y =>
  match x, y with
  | .ok a, .ok b =>
    if h : a = b then .isTrue (congrArg Except.ok h)
    else .isFalse (fun he => h (Except.ok.inj he))
  | .error a, .error b =>
    if h : a = b then .isTrue (congrArg Except.error h)
    else .isFalse (fun he => h (Except.error.inj he))
  | .ok _, .error _ => .isFalse (fun he => Except.noConfusion he)
  | .error _, .ok _ => .isFalse (fun he => Except.noConfusion he)

/-- Row of the `monthly` dataset (`khelp_monthly_latest.csv`):
columns `Month` (a string with an embedded month index, e.g. "2024-03"),
`Year`, `Created`, `Resolved`. -/
structure MonthlyRow where
  month : String
  year : Int
  created : Int
  resolved : Int
deriving DecidableEq, Repr

/-- Row of the `resolution` dataset: columns `Severity`, `2024_Avg_Days`,
`2025_Avg_Days`. -/
structure ResolutionRow where
  severity : String
  avg2024Days : ℚ
  avg2025Days : ℚ
deriving DecidableEq, Repr

/-- Row of the `eng_summary` dataset: columns `Metric`, `2024_Value`,
`2025_Value`; the values are percent-suffixed strings such as "42.5%". -/
structure EngSummaryRow where
  metric : String
  value2024 : String
  value2025 : String
deriving DecidableEq, Repr

/-- Row of the `orgs` dataset, restricted to the columns the tiering
logic reads: `Organization` and `2025_Tickets`. -/
structure OrgRow where
  organization : String
  tickets2025 : Int
deriving DecidableEq, Repr

/-- Row of the `assignees` dataset (`khelp_assignee_performance_latest.csv`),
restricted to the columns the Team Scorecard view reads. -/
structure AssigneeRow where
  assignee : String
  year : Int
  totalAssigned : Int
  totalResolved : Int
  avgResolutionDays : ℚ
  resolutionRatePct : ℚ
  engineeringRatePct : ℚ
deriving DecidableEq, Repr

/-- The `data` dict returned by `load_comprehensive_data`, restricted to
the datasets the modelled computations read; `none` models an absent key. -/
structure Data where
  monthly : Option (List MonthlyRow)
  resolution : Option (List ResolutionRow)
  engSummary : Option (List EngSummaryRow)
  orgs : Option (List OrgRow)
  assignees : Option (List AssigneeRow)

/-- Python `s.rstrip("%")`: drop every trailing `"%"` character. -/
def rstripPercent (s : String) : String :=
  String.mk ((s.toList.reverse.dropWhile (fun c => c = '%')).reverse)

/-- Python `str.split(sep)` for a single-character separator, on the
character list of the string. -/
def splitOnChar (c : Char) : List Char → List (List Char)
  | [] => [[]]
  | x :: xs =>
    match splitOnChar c xs with
    | [] => [[]]
    | h :: t => if x = c then [] :: h :: t else (x :: h) :: t

/-- Parse a non-empty all-digit character list as a natural number, the
success case of Python `int(s)` on the dashboard month fields. -/
def digitsToNat? (l : List Char) : Option Nat :=
  match l with
  | [] => none
  | _ :: _ =>
    l.foldl (fun acc ch =>
      acc.bind (fun n =>
        if ch.isDigit then some (10 * n + (ch.toNat - 48)) else none))
      (some 0)

/-- Ten to a natural power, for decimal fractions. -/
def pow10 : Nat → ℚ
  | 0 => 1
  | n + 1 => 10 * pow10 n

/-- Python `float(s)` on a plain unsigned decimal literal such as "42.5" or
"17": the integer part, an optional dot, and a fractional part.  The
dashboard only ever applies `float` to such strings (percent rates with the
`%` already stripped). -/
def parseFloat? (s : String) : Option ℚ :=
  match splitOnChar '.' s.data with
  | [w] => (digitsToNat? w).map (fun n => (n : ℚ))
  | [w, f] =>
    match digitsToNat? w, digitsToNat? f with
    | some wn, some fn => some ((wn : ℚ) + (fn : ℚ) / pow10 f.length)
    | _, _ => none
  | _ => none

/-- Sum of the `Created` column over the year `y` slice of the monthly
dataset: `data["monthly"][data["monthly"]["Year"] == y]["Created"].sum()`
(dashboard lines 181-182 and 327-328). -/
def totalCreated (df : List MonthlyRow) (y : Int) : Int :=
  ((df.filter (fun r => r.year = y)).map (fun r => r.created)).sum

/-- The `Change` value of the "Total Tickets" summary row (dashboard line
329): `((total_2025-total_2024)/total_2024*100) if total_2024 > 0 else 0`. -/
def totalTicketsChangePct (df : List MonthlyRow) : ℚ :=
  let t24 := totalCreated df 2024
  let t25 := totalCreated df 2025
  if t24 > 0 then ((t25 : ℚ) - (t24 : ℚ)) / (t24 : ℚ) * 100 else 0

/-- The delta of the "Total Tickets" `st.metric` (dashboard line 188):
`(total_2025-total_2024)/total_2024*100` with no guard.  When
`total_2024 = 0` the float division yields a non-finite value
(`inf` or `nan`), modelled as `none`; otherwise the finite quotient. -/
def totalTicketsMetricDelta (df : List MonthlyRow) : Option ℚ :=
  let t24 := totalCreated df 2024
  let t25 := totalCreated df 2025
  if t24 = 0 then none
  else some (((t25 : ℚ) - (t24 : ℚ)) / (t24 : ℚ) * 100)

/-- Percent change as the specification defines it: `(new - old) / old * 100`,
defined only when `old ≠ 0`; `none` is the "unavailable" report. -/
def percentChangeSpec (old new : ℚ) : Option ℚ :=
  if old = 0 then none else some ((new - old) / old * 100)

/-- Tier 1: organizations with `2025_Tickets >= 50` (dashboard line 511;
the subsequent `sort_values` only orders the tier for display and does not
change membership). -/
def tier1 (df : List OrgRow) : List OrgRow :=
  df.filter (fun r => 50 ≤ r.tickets2025)

/-- Tier 2: organizations with `20 <= 2025_Tickets < 50` (line 512). -/
def tier2 (df : List OrgRow) : List OrgRow :=
  df.filter (fun r => 20 ≤ r.tickets2025 ∧ r.tickets2025 < 50)

/-- Tier 3: organizations with `5 <= 2025_Tickets < 20` (line 513). -/
def tier3 (df : List OrgRow) : List OrgRow :=
  df.filter (fun r => 5 ≤ r.tickets2025 ∧ r.tickets2025 < 20)

/-- Tier 4: organizations with `2025_Tickets < 5` (line 514). -/
def tier4 (df : List OrgRow) : List OrgRow :=
  df.filter (fun r => r.tickets2025 < 5)

/-- One engineering-rate lookup of the executive summary (dashboard lines
194-195):
`float(df[df["Metric"] == "Engineering Involvement Rate"][col].values[0].rstrip("%"))`.
`.values[0]` on an empty selection raises `IndexError`; `float` on an
unparsable string raises `ValueError`. -/
def engRateLookup (df : List EngSummaryRow) (value : EngSummaryRow → String) :
    Except PyErr ℚ :=
  match (df.filter (fun r => r.metric = "Engineering Involvement Rate")).head? with
  | none => Except.error PyErr.indexError
  | some r =>
    match parseFloat? (rstripPercent (value r)) with
    | none => Except.error PyErr.valueError
    | some q => Except.ok q

/-- The "% Requiring Engineering" metric block (dashboard lines 194-202):
the 2025 rate together with `change = eng_2025_rate - eng_2024_rate`, the
percentage-point delta shown as the metric delta. -/
def engMetricBlock (df : List EngSummaryRow) : Except PyErr (ℚ × ℚ) := do
  let r2025 ← engRateLookup df (fun r => r.value2025)
  let r2024 ← engRateLookup df (fun r => r.value2024)
  pure (r2025, r2025 - r2024)

/-- One per-severity resolution metric of the executive summary (dashboard
lines 235-243): the 2025 and 2024 `Avg_Days` values for the severity are
selected; only if both selections are non-empty is the metric rendered,
with value `v2025[0]` and delta `(v2025[0]-v2024[0])/v2024[0]*100`;
otherwise the metric is skipped (`none`), with no exception. -/
def severityResolutionMetric (df : List ResolutionRow) (sev : String) :
    Option (ℚ × ℚ) :=
  let v2025 := (df.filter (fun r => r.severity = sev)).map (fun r => r.avg2025Days)
  let v2024 := (df.filter (fun r => r.severity = sev)).map (fun r => r.avg2024Days)
  match v2025.head?, v2024.head? with
  | some b25, some b24 => some (b25, (b25 - b24) / b24 * 100)
  | _, _ => none

/-- Rounding to two decimal places, `Series.round(2)`.  numpy rounds
half-to-even; `round` on ℚ rounds half-up.  The two agree except exactly at
a half, and every value this is applied to below (`Total_Resolved / 250`)
has `100 * value = 2 * Total_Resolved / 5`, whose fractional part is a
multiple of 1/5 and hence never a half. -/
def round2 (q : ℚ) : ℚ :=
  ((round (q * 100) : ℤ) : ℚ) / 100

/-- The year slice of the Team Scorecard view (dashboard lines 983-986):
`df_assignees[df_assignees["Year"] == year]` followed by
`df_year[df_year["Assignee"] != "Unassigned"]`. -/
def dfYear (df : List AssigneeRow) (y : Int) : List AssigneeRow :=
  (df.filter (fun r => r.year = y)).filter (fun r => r.assignee ≠ "Unassigned")

/-- A row of `scorecard_df` before the `Rank` column is inserted: the
columns selected at dashboard lines 1158-1171, including the derived
`Tickets_Per_Day = (Total_Resolved / 250).round(2)` of line 993. -/
structure SRow where
  assignee : String
  totalAssigned : Int
  totalResolved : Int
  avgResolutionDays : ℚ
  resolutionRatePct : ℚ
  ticketsPerDay : ℚ
  engineeringRatePct : ℚ
deriving DecidableEq, Repr

/-- Column selection of one scorecard row (dashboard lines 993 and
1158-1171). -/
def toSRow (r : AssigneeRow) : SRow :=
  { assignee := r.assignee
    totalAssigned := r.totalAssigned
    totalResolved := r.totalResolved
    avgResolutionDays := r.avgResolutionDays
    resolutionRatePct := r.resolutionRatePct
    ticketsPerDay := round2 ((r.totalResolved : ℚ) / 250)
    engineeringRatePct := r.engineeringRatePct }

/-- The unranked scorecard: the filtered year slice with the scorecard
columns (dashboard lines 983-993 and 1171). -/
def scorecardBase (df : List AssigneeRow) (y : Int) : List SRow :=
  (dfYear df y).map toSRow

/-- Contract of `scorecard_df.sort_values("Total_Resolved", ascending=False)`
(dashboard line 1174): the output is a permutation of the input that is
ordered by non-increasing `Total_Resolved`.  the pandas default sort kind is
`quicksort`, which its documentation states is not stable, so nothing
beyond this is guaranteed about the order of tied rows. -/
def IsSortDescByResolved (inp out : List SRow) : Prop :=
  out.Perm inp ∧ out.Sorted (fun a b => b.totalResolved ≤ a.totalResolved)

instance (inp out : List SRow) : Decidable (IsSortDescByResolved inp out) := by
  unfold IsSortDescByResolved; exact instDecidableAnd

/-- A row of the ranked scorecard, after
`scorecard_df.insert(0, "Rank", range(1, len(scorecard_df) + 1))`
(dashboard line 1177). -/
structure ScorecardRow where
  rank : Nat
  row : SRow
deriving DecidableEq, Repr

/-- Rank assignment starting from `i` in row order. -/
def addRanksFrom (i : Nat) : List SRow → List ScorecardRow
  | [] => []
  | r :: rs => ⟨i, r⟩ :: addRanksFrom (i + 1) rs

/-- Rank column `range(1, len + 1)` inserted in row order (line 1177). -/
def addRanks (l : List SRow) : List ScorecardRow :=
  addRanksFrom 1 l

/-- A row of the year-over-year agent `comparison` frame (dashboard lines
1390-1401): the merged per-year values plus the derived change columns. -/
structure CompRow where
  assignee : String
  totalResolved2024 : Int
  totalResolved2025 : Int
  avgDays2024 : ℚ
  avgDays2025 : ℚ
  volumeChange : Int
  speedChange : ℚ
  speedChangePct : ℚ
deriving DecidableEq, Repr

/-- The year-over-year comparison (dashboard lines 1386-1401):
`pd.merge(df_2024[...], df_2025[...], on="Assignee", how="inner")` over the
unfiltered year slices of `df_assignees`, followed by the `Volume_Change`,
`Speed_Change` and `Speed_Change_Pct` columns.  An inner merge emits, in
left-key order, one row per matching left/right pair. -/
def comparison (df : List AssigneeRow) : List CompRow :=
  (df.filter (fun r => r.year = 2024)).flatMap (fun l =>
    ((df.filter (fun r => r.year = 2025)).filter
        (fun r => r.assignee = l.assignee)).map (fun r =>
      { assignee := l.assignee
        totalResolved2024 := l.totalResolved
        totalResolved2025 := r.totalResolved
        avgDays2024 := l.avgResolutionDays
        avgDays2025 := r.avgResolutionDays
        volumeChange := r.totalResolved - l.totalResolved
        speedChange := r.avgResolutionDays - l.avgResolutionDays
        speedChangePct := (r.avgResolutionDays - l.avgResolutionDays) /
          l.avgResolutionDays * 100 }))

/-- Order on comparison rows by `Speed_Change`. -/
def compLE (a b : CompRow) : Prop :=
  a.speedChange ≤ b.speedChange

instance : DecidableRel compLE := fun a b => by
  unfold compLE; infer_instance

/-- The "Most Improved" table, `comparison.nsmallest(5, "Speed_Change")`
(dashboard line 1404): the five smallest `Speed_Change` rows; `nsmallest`
keeps the first occurrence among ties (`keep="first"`), i.e. it is a
stable ascending selection, here a stable insertion sort followed by
`take 5`. -/
def mostImproved (df : List AssigneeRow) : List CompRow :=
  (List.insertionSort compLE (comparison df)).take 5

/-- The Most Improved table as the Team Scorecard view renders it: the
comparison section (dashboard lines 1380-1411) is nested under
`if not df_year.empty:` (line 991), runs only for the 2025 scorecard
(line 1384), and displays the table only under `if not comparison.empty:`
(line 1398).  `none` models a section that is not rendered. -/
def mostImprovedView (df : List AssigneeRow) (y : Int) :
    Option (List CompRow) :=
  if (dfYear df y).isEmpty then none
  else if y = 2025 then
    if (comparison df).isEmpty then none
    else some (mostImproved df)
  else none

/-- The month index embedded in the `Month` field:
`Month.str.split("-").str[1].astype(int)` (dashboard line 1592); `none`
models the `ValueError` that `astype(int)` raises on an unparsable field. -/
def monthNum? (m : String) : Option Nat :=
  (splitOnChar '-' m.data)[1]? >>= digitsToNat?

/-- A row of `df_monthly_agg` (dashboard lines 1587-1593): one group of
`groupby(["Month", "Year"])` with its summed `Created`/`Resolved`, plus the
derived `Month_Num` column. -/
structure AggRow where
  month : String
  year : Int
  created : Int
  resolved : Int
  monthNum : Nat
deriving DecidableEq, Repr

/-- Net change column, `Created - Resolved` (dashboard line 1593). -/
def netChange (r : AggRow) : Int :=
  r.created - r.resolved

/-- Strict lexicographic comparison of two character lists by code point,
the order Python puts on strings. -/
def charsLtb : List Char → List Char → Bool
  | [], [] => false
  | [], _ :: _ => true
  | _ :: _, [] => false
  | a :: as, b :: bs =>
    if a < b then true else if b < a then false else charsLtb as bs

/-- Lexicographic order on the `(Month, Year)` group keys, the order in
which `groupby(["Month", "Year"])` (with its default `sort=True`) emits the
groups. -/
def keyLE (a b : String × Int) : Prop :=
  charsLtb a.1.data b.1.data = true ∨ (a.1 = b.1 ∧ a.2 ≤ b.2)

instance : DecidableRel keyLE := fun a b => by
  unfold keyLE; exact instDecidableOr

/-- The distinct `(Month, Year)` keys of the monthly dataset in groupby
order. -/
def groupKeys (df : List MonthlyRow) : List (String × Int) :=
  List.insertionSort keyLE ((df.map (fun r => (r.month, r.year))).dedup)

/-- Summed `Created` of one group. -/
def sumCreated (df : List MonthlyRow) (k : String × Int) : Int :=
  ((df.filter (fun r => r.month = k.1 ∧ r.year = k.2)).map
    (fun r => r.created)).sum

/-- Summed `Resolved` of one group. -/
def sumResolved (df : List MonthlyRow) (k : String × Int) : Int :=
  ((df.filter (fun r => r.month = k.1 ∧ r.year = k.2)).map
    (fun r => r.resolved)).sum

/-- The aggregated row of one group key, provided its month index parses. -/
def aggOf (df : List MonthlyRow) (k : String × Int) : Option AggRow :=
  (monthNum? k.1).map (fun n =>
    { month := k.1, year := k.2, created := sumCreated df k
      resolved := sumResolved df k, monthNum := n })

/-- The frame `df_monthly_agg` of dashboard lines 1587-1593:
`groupby(["Month", "Year"]).agg({"Created": "sum", "Resolved": "sum"})`,
`reset_index()`, then the `Month_Num` and `Net_Change` columns.  `none`
models `astype(int)` raising when any `Month` field fails to parse. -/
def monthlyAgg (df : List MonthlyRow) : Option (List AggRow) :=
  if (groupKeys df).all (fun k => (monthNum? k.1).isSome) then
    some ((groupKeys df).filterMap (aggOf df))
  else none

/-- Order on aggregated rows by month index, the key of
`sort_values("Month_Num")` (dashboard lines 1596-1597). -/
def aggLE (a b : AggRow) : Prop :=
  a.monthNum ≤ b.monthNum

instance : DecidableRel aggLE := fun a b => by
  unfold aggLE; exact Nat.decLe _ _

instance : IsTotal AggRow aggLE :=
  ⟨fun a b => Nat.le_total a.monthNum b.monthNum⟩

instance : IsTrans AggRow aggLE :=
  ⟨fun _ _ _ h h2 => Nat.le_trans h h2⟩

/-- Contract of `sort_values("Month_Num")` (dashboard lines 1596-1597): a
permutation of the input ordered by non-decreasing `Month_Num`; the default
`quicksort` kind guarantees nothing beyond this about tied rows. -/
def IsSortAscByMonthNum (inp out : List AggRow) : Prop :=
  out.Perm inp ∧ out.Sorted aggLE

instance (inp out : List AggRow) : Decidable (IsSortAscByMonthNum inp out) := by
  unfold IsSortAscByMonthNum; exact instDecidableAnd

/-- Running sum with accumulator, for `Series.cumsum()`. -/
def cumsumFrom (acc : Int) : List Int → List Int
  | [] => []
  | x :: xs => (acc + x) :: cumsumFrom (acc + x) xs

/-- The `cumsum()` of a column (dashboard lines 1599-1600). -/
def cumsum (l : List Int) : List Int :=
  cumsumFrom 0 l

/-- The `Cumulative_Backlog` column for year `y` (dashboard lines
1596-1600), with `sort_values("Month_Num")` instantiated by a concrete
sort; the theorem below shows the result does not depend on which
permissible sort output pandas produces, provided the year month indices
are distinct. -/
def cumulativeBacklog (agg : List AggRow) (y : Int) : List Int :=
  cumsum ((List.insertionSort aggLE
    (agg.filter (fun r => r.year = y))).map netChange)

/-- Cumulative backlog as the specification words it: take the year
months with their embedded month indices, order them ascending by index,
form the per-month net change (summed `Created` minus summed `Resolved`),
and take the running sum. -/
def backlogSpec (df : List MonthlyRow) (y : Int) : List Int :=
  let months := ((df.filter (fun r => r.year = y)).map (fun r => r.month)).dedup
  let entries := months.filterMap (fun m =>
    (monthNum? m).map (fun n =>
      ({ month := m, year := y, created := sumCreated df (m, y)
         resolved := sumResolved df (m, y), monthNum := n } : AggRow)))
  cumsum ((List.insertionSort aggLE entries).map netChange)

/-- The backlog section of the Response & Resolution page (dashboard lines
1478-1639).  `df_monthly = data["monthly"]` is assigned only under the
joint guard `if "monthly" in data and "resolution" in data` (lines
1478-1486), while the backlog block runs under `if "monthly" in data`
alone (line 1585) and reads `df_monthly` (line 1587): when only `monthly`
is supplied the name is unbound and Python raises `NameError`.  The result
is the pair of 2024/2025 `Cumulative_Backlog` columns, or `none` when the
section is skipped. -/
def responseResolutionBacklog (d : Data) :
    Except PyErr (Option (List Int × List Int)) :=
  let dfMonthly : Option (List MonthlyRow) :=
    match d.monthly, d.resolution with
    | some m, some _ => some m
    | _, _ => none
  match d.monthly with
  | none => Except.ok none
  | some _ =>
    match dfMonthly with
    | none => Except.error PyErr.nameError
    | some m =>
      match monthlyAgg m with
      | none => Except.error PyErr.valueError
      | some agg =>
        Except.ok (some (cumulativeBacklog agg 2024, cumulativeBacklog agg 2025))

/-- Concrete monthly dataset whose 2024 `Created` total is 0. -/
def monthlyZero24 : List MonthlyRow :=
  [⟨"2024-01", 2024, 0, 0⟩, ⟨"2025-01", 2025, 5, 2⟩]

/-- Concrete monthly dataset with a positive 2024 total. -/
def monthlyPos : List MonthlyRow :=
  [⟨"2024-01", 2024, 5, 1⟩, ⟨"2025-01", 2025, 8, 2⟩]

/-- Concrete monthly dataset exercising grouping (a duplicated month),
month-index parsing and sorting. -/
def monthlySample : List MonthlyRow :=
  [⟨"2024-02", 2024, 5, 3⟩, ⟨"2024-01", 2024, 4, 1⟩,
   ⟨"2024-01", 2024, 2, 1⟩, ⟨"2025-01", 2025, 7, 2⟩]

/-- Concrete resolution dataset with a single severity. -/
def resolutionSample : List ResolutionRow :=
  [⟨"Blocker", 10, 8⟩]

/-- Concrete engineering summary without an "Engineering Involvement Rate"
row. -/
def engNoRate : List EngSummaryRow :=
  [⟨"Total Tickets", "998", "654"⟩]

/-- Concrete engineering summary with the rate row. -/
def engSample : List EngSummaryRow :=
  [⟨"Engineering Involvement Rate", "30.0%", "42.5%"⟩]

/-- Concrete organizations at the tier boundary ticket counts. -/
def orgsSample : List OrgRow :=
  [⟨"O0", 0⟩, ⟨"O4", 4⟩, ⟨"O5", 5⟩, ⟨"O19", 19⟩, ⟨"O20", 20⟩,
   ⟨"O49", 49⟩, ⟨"O50", 50⟩, ⟨"O100", 100⟩]

/-- Two 2025 assignees tied at 10 resolved tickets, Alice first. -/
def assigneesTied : List AssigneeRow :=
  [⟨"Alice", 2025, 12, 10, 3, 90, 20⟩, ⟨"Bob", 2025, 11, 10, 4, 85, 25⟩]

/-- Assignees A (2024 only), B (both years), C (2025 only). -/
def assigneesAB : List AssigneeRow :=
  [⟨"A", 2024, 10, 8, 5, 80, 10⟩, ⟨"B", 2024, 12, 9, 6, 75, 20⟩,
   ⟨"B", 2025, 11, 10, 4, 90, 15⟩, ⟨"C", 2025, 9, 7, 3, 70, 12⟩]

/-- An "Unassigned" entity with rows in both years, together with a
regular 2025 agent, so that the filtered year slice is non-empty and the
guarded comparison section of the Team Scorecard view is rendered. -/
def assigneesUnassigned : List AssigneeRow :=
  [⟨"Unassigned", 2024, 10, 8, 5, 80, 10⟩,
   ⟨"Unassigned", 2025, 6, 4, 3, 70, 10⟩,
   ⟨"Dana", 2025, 9, 7, 2, 85, 12⟩]

/-- The tied pair used against the stability claim. -/
def aliceRow : AssigneeRow := ⟨"Alice", 2025, 12, 10, 3, 90, 20⟩

/-- Second element of the tied pair. -/
def bobRow : AssigneeRow := ⟨"Bob", 2025, 11, 10, 4, 85, 25⟩

/-- Scorecard sample with distinct resolved counts, already descending. -/
def assigneesDistinct : List AssigneeRow :=
  [⟨"Alice", 2025, 12, 10, 3, 90, 20⟩, ⟨"Bob", 2025, 11, 8, 4, 85, 25⟩]

/-- C1, counterexample: on a monthly dataset whose 2024 `Created` total is
0, the Total Tickets year-over-year change of the summary table is reported
as the number 0, while the specification formula is undefined (unavailable)
there — contradicting the claim that a zero old-year value is reported as
unavailable, never as zero. -/
theorem totalTickets_change_zero_when_2024_zero :
    totalCreated monthlyZero24 2024 = 0 ∧
    totalCreated monthlyZero24 2025 = 5 ∧
    totalTicketsChangePct monthlyZero24 = 0 ∧
    percentChangeSpec 0 5 = none := by
  decide

/-- C1, amended: when the 2024 total is positive both the summary-table
change and the metric delta equal `(new - old) / old * 100`; when the 2024
total is 0 the summary table reports the change as the number 0 and the
metric delta is the unguarded division, a non-finite float. -/
theorem totalTickets_change_policy (df : List MonthlyRow) :
    (0 < totalCreated df 2024 →
      totalTicketsChangePct df =
        ((totalCreated df 2025 : ℚ) - (totalCreated df 2024 : ℚ)) /
          (totalCreated df 2024 : ℚ) * 100 ∧
      totalTicketsMetricDelta df = some (totalTicketsChangePct df)) ∧
    (totalCreated df 2024 = 0 →
      totalTicketsChangePct df = 0 ∧ totalTicketsMetricDelta df = none) := by
  constructor
  · intro h
    have h0 : totalCreated df 2024 ≠ 0 := by omega
    simp [totalTicketsChangePct, totalTicketsMetricDelta, h, h0]
  · intro h
    simp [totalTicketsChangePct, totalTicketsMetricDelta, h]

/-- C1, witness for the amended theorem at a dataset with totals 5 and 8:
the reported change is 60%. -/
theorem totalTickets_change_policy_witness :
    totalTicketsChangePct monthlyPos = 60 := by
  have h := ((totalTickets_change_policy monthlyPos).1 (by decide)).1
  have e24 : totalCreated monthlyPos 2024 = 5 := by decide
  have e25 : totalCreated monthlyPos 2025 = 8 := by decide
  rw [h, e24, e25]
  norm_num

/-- C2: rendering the backlog section with only the `monthly` dataset
supplied raises `NameError` (the `df_monthly` name is bound only under the
joint monthly-and-resolution guard), contradicting the claim that the
computation never raises when a subset of datasets is absent; with the
empty input mapping the section is skipped without raising, and with both
datasets supplied the backlog is produced. -/
theorem backlog_requires_resolution_guard :
    responseResolutionBacklog ⟨some monthlySample, none, none, none, none⟩ =
      Except.error PyErr.nameError ∧
    responseResolutionBacklog ⟨none, none, none, none, none⟩ =
      Except.ok none ∧
    responseResolutionBacklog
        ⟨some monthlySample, some resolutionSample, none, none, none⟩ =
      Except.ok (some ([4, 6], [5])) := by
  decide

/-- C3, counterexample: on an `eng_summary` dataset with no
"Engineering Involvement Rate" row, the unguarded `.values[0]` lookup
raises `IndexError` instead of reporting the metric unavailable —
contradicting the claim that a missing category never raises. -/
theorem engRate_lookup_raises_when_metric_absent :
    engNoRate.filter
        (fun r => r.metric = "Engineering Involvement Rate") = [] ∧
    engMetricBlock engNoRate = Except.error PyErr.indexError := by
  decide

/-- C3, amended: the length-guarded severity lookups of the Resolution
dataset report the metric unavailable (skip it) when no row matches the
severity, without raising; the Engineering Summary rate lookup is
unguarded and raises `IndexError` when its row is absent. -/
theorem category_lookup_policy (dfR : List ResolutionRow) (sev : String)
    (dfE : List EngSummaryRow) :
    (dfR.filter (fun r => r.severity = sev) = [] →
      severityResolutionMetric dfR sev = none) ∧
    (dfE.filter (fun r => r.metric = "Engineering Involvement Rate") = [] →
      engMetricBlock dfE = Except.error PyErr.indexError) := by
  constructor
  · intro h
    simp [severityResolutionMetric, h]
  · intro h
    simp [engMetricBlock, engRateLookup, h, Bind.bind, Except.bind]

/-- C3, witness for the amended theorem: a severity absent from a concrete
resolution dataset yields `none` for that metric alone. -/
theorem category_lookup_policy_witness :
    severityResolutionMetric resolutionSample "Critical" = none :=
  (category_lookup_policy resolutionSample "Critical" []).1 (by decide)

/-- C5: the four tiers are exhaustive and pairwise disjoint on every
organization of the dataset, and each boundary ticket count 50, 20, 5 is
assigned to the higher tier. -/
theorem tiering_partition (df : List OrgRow) (r : OrgRow) (h : r ∈ df) :
    (r ∈ tier1 df ∨ r ∈ tier2 df ∨ r ∈ tier3 df ∨ r ∈ tier4 df) ∧
    ¬(r ∈ tier1 df ∧ r ∈ tier2 df) ∧ ¬(r ∈ tier1 df ∧ r ∈ tier3 df) ∧
    ¬(r ∈ tier1 df ∧ r ∈ tier4 df) ∧ ¬(r ∈ tier2 df ∧ r ∈ tier3 df) ∧
    ¬(r ∈ tier2 df ∧ r ∈ tier4 df) ∧ ¬(r ∈ tier3 df ∧ r ∈ tier4 df) ∧
    (r.tickets2025 = 50 → r ∈ tier1 df) ∧
    (r.tickets2025 = 20 → r ∈ tier2 df) ∧
    (r.tickets2025 = 5 → r ∈ tier3 df) := by
  simp only [tier1, tier2, tier3, tier4, List.mem_filter, h, true_and,
    decide_eq_true_eq]
  omega

/-- C5, witness: the boundary organization with exactly 50 tickets lands in
Tier 1. -/
theorem tiering_partition_witness :
    (⟨"O50", 50⟩ : OrgRow) ∈ tier1 orgsSample :=
  (tiering_partition orgsSample ⟨"O50", 50⟩ (by decide)).2.2.2.2.2.2.2.1 rfl

/-- C8: the engineering-involvement change is the arithmetic difference of
the two parsed percent strings (a percentage-point delta), and "42.5%"
parses to 42.5, not 0.425. -/
theorem engChange_percentage_point (dfE : List EngSummaryRow) (q24 q25 : ℚ)
    (h24 : engRateLookup dfE (fun r => r.value2024) = Except.ok q24)
    (h25 : engRateLookup dfE (fun r => r.value2025) = Except.ok q25) :
    engMetricBlock dfE = Except.ok (q25, q25 - q24) ∧
    parseFloat? (rstripPercent "42.5%") = some (42.5 : ℚ) ∧
    (42.5 : ℚ) ≠ (0.425 : ℚ) := by
  refine ⟨?_, ?_, by norm_num⟩
  · simp [engMetricBlock, h24, h25, Bind.bind, Except.bind, Pure.pure,
      Except.pure]
  · simp +decide [parseFloat?, rstripPercent, splitOnChar, digitsToNat?,
      pow10]
    norm_num

/-- C8, witness at the concrete rates 30.0% and 42.5%: the reported change
is the percentage-point difference 12.5, not the relative change
(42.5 - 30) / 30 * 100. -/
theorem engChange_percentage_point_witness :
    engMetricBlock engSample = Except.ok (85 / 2, 25 / 2) ∧
    (25 / 2 : ℚ) ≠ (85 / 2 - 30) / 30 * 100 := by
  have h24 : engRateLookup engSample (fun r => r.value2024) =
      Except.ok (30 : ℚ) := by
    simp +decide [engRateLookup, engSample, parseFloat?, rstripPercent,
      splitOnChar, digitsToNat?, pow10]
  have h25 : engRateLookup engSample (fun r => r.value2025) =
      Except.ok (85 / 2 : ℚ) := by
    simp +decide [engRateLookup, engSample, parseFloat?, rstripPercent,
      splitOnChar, digitsToNat?, pow10]
    norm_num
  have h := (engChange_percentage_point engSample 30 (85 / 2) h24 h25).1
  refine ⟨?_, by norm_num⟩
  rw [h]
  norm_num

/-- Rank column values of `addRanksFrom` are consecutive from the start
index. -/
theorem addRanksFrom_map_rank (l : List SRow) :
    ∀ i : Nat, (addRanksFrom i l).map (fun t => t.rank) =
      List.range' i l.length := by
  induction l with
  | nil => intro i; simp [addRanksFrom]
  | cons r rs ih => intro i; simp [addRanksFrom, List.range', ih]

/-- A list sorted by non-increasing resolved count with pairwise-distinct
resolved counts is sorted strictly. -/
theorem sorted_desc_strict {l : List SRow}
    (hs : l.Sorted (fun a b => b.totalResolved ≤ a.totalResolved))
    (hn : (l.map (fun s => s.totalResolved)).Nodup) :
    l.Sorted (fun a b => b.totalResolved < a.totalResolved) := by
  have hne : l.Pairwise (fun a b => a.totalResolved ≠ b.totalResolved) := by
    rw [List.Nodup, List.pairwise_map] at hn
    exact hn
  exact (hs.and hne).imp (fun h => lt_of_le_of_ne h.1 (fun e => h.2 e.symm))

/-- Every row of a ranked list comes from the unranked list. -/
theorem row_mem_of_mem_addRanksFrom (l : List SRow) :
    ∀ (i : Nat) (t : ScorecardRow), t ∈ addRanksFrom i l → t.row ∈ l := by
  induction l with
  | nil => intro i t ht; simp [addRanksFrom] at ht
  | cons r rs ih =>
    intro i t ht
    simp only [addRanksFrom, List.mem_cons] at ht
    rcases ht with h | h
    · subst h; exact List.mem_cons_self _ _
    · exact List.mem_cons_of_mem _ (ih (i + 1) t h)

/-- C7: the year-over-year comparison contains an assignee exactly when it
has a row in both the 2024 and the 2025 slice, and each matched row carries
the volume difference, the speed difference, and the speed percent
change. -/
theorem comparison_inner_join (df : List AssigneeRow) :
    (∀ name : String,
      (∃ c ∈ comparison df, c.assignee = name) ↔
        ((∃ r ∈ df, r.year = 2024 ∧ r.assignee = name) ∧
         (∃ r ∈ df, r.year = 2025 ∧ r.assignee = name))) ∧
    (∀ c ∈ comparison df,
      c.volumeChange = c.totalResolved2025 - c.totalResolved2024 ∧
      c.speedChange = c.avgDays2025 - c.avgDays2024 ∧
      c.speedChangePct =
        (c.avgDays2025 - c.avgDays2024) / c.avgDays2024 * 100) := by
  constructor
  · intro name
    simp only [comparison, List.mem_flatMap, List.mem_map, List.mem_filter,
      decide_eq_true_eq]
    constructor
    · rintro ⟨c, ⟨l, ⟨hl, hly⟩, r, ⟨⟨hr, hry⟩, hrl⟩, rfl⟩, rfl⟩
      exact ⟨⟨l, hl, hly, rfl⟩, ⟨r, hr, hry, hrl⟩⟩
    · rintro ⟨⟨l, hl, hly, hln⟩, ⟨r, hr, hry, hrn⟩⟩
      exact ⟨_, ⟨l, ⟨hl, hly⟩, r, ⟨⟨hr, hry⟩, hrn.trans hln.symm⟩, rfl⟩, hln⟩
  · intro c hc
    simp only [comparison, List.mem_flatMap, List.mem_map, List.mem_filter,
      decide_eq_true_eq] at hc
    obtain ⟨l, _, r, _, rfl⟩ := hc
    exact ⟨rfl, rfl, rfl⟩

/-- C7, witness on the slices with agents {A, B} in 2024 and {B, C} in
2025: B appears in the comparison. -/
theorem comparison_inner_join_witness :
    ∃ c ∈ comparison assigneesAB, c.assignee = "B" :=
  ((comparison_inner_join assigneesAB).1 "B").mpr (by decide)

/-- C9: every scorecard row carries
`Tickets_Per_Day = (Total_Resolved / 250).round(2)`: a multiple of 1/100
within 1/200 of `Total_Resolved / 250`. -/
theorem ticketsPerDay_round2_div250 (df : List AssigneeRow) (y : Int)
    (s : SRow) (hs : s ∈ scorecardBase df y) :
    s.ticketsPerDay = round2 ((s.totalResolved : ℚ) / 250) ∧
    ∃ k : ℤ, s.ticketsPerDay = (k : ℚ) / 100 ∧
      |(s.totalResolved : ℚ) / 250 - s.ticketsPerDay| ≤ 1 / 200 := by
  obtain ⟨r, hr, rfl⟩ := List.mem_map.1 hs
  refine ⟨rfl, round ((r.totalResolved : ℚ) / 250 * 100), rfl, ?_⟩
  have h := abs_sub_round ((r.totalResolved : ℚ) / 250 * 100)
  show |(r.totalResolved : ℚ) / 250 - round2 ((r.totalResolved : ℚ) / 250)| ≤
    1 / 200
  have e : (r.totalResolved : ℚ) / 250 -
      round2 ((r.totalResolved : ℚ) / 250) =
      ((r.totalResolved : ℚ) / 250 * 100 -
        (round ((r.totalResolved : ℚ) / 250 * 100) : ℚ)) / 100 := by
    unfold round2
    ring
  rw [e, abs_div, abs_of_nonneg (by norm_num : (0:ℚ) ≤ 100)]
  linarith [h]

/-- C9, witness at a row with 10 resolved tickets. -/
theorem ticketsPerDay_round2_div250_witness :
    ∃ k : ℤ,
      (toSRow ⟨"Alice", 2025, 12, 10, 3, 90, 20⟩).ticketsPerDay =
        (k : ℚ) / 100 ∧
      |((toSRow ⟨"Alice", 2025, 12, 10, 3, 90, 20⟩).totalResolved : ℚ) / 250 -
        (toSRow ⟨"Alice", 2025, 12, 10, 3, 90, 20⟩).ticketsPerDay| ≤
        1 / 200 :=
  (ticketsPerDay_round2_div250 assigneesDistinct 2025 _
    (List.mem_map_of_mem toSRow
      (show (⟨"Alice", 2025, 12, 10, 3, 90, 20⟩ : AssigneeRow) ∈
        dfYear assigneesDistinct 2025 by decide))).2

/-- C4, counterexample: with Alice before Bob in the input and both at 10
resolved tickets, the list with Bob first is a permissible output of the
non-stable `sort_values` (a permutation ordered by the key), and its ranked
form puts Bob at rank 1 — the relative order of the tied pair does not
match the input order. -/
theorem ranking_tie_order_not_input_order :
    scorecardBase assigneesTied 2025 = [toSRow aliceRow, toSRow bobRow] ∧
    (toSRow aliceRow).totalResolved = (toSRow bobRow).totalResolved ∧
    toSRow aliceRow ≠ toSRow bobRow ∧
    IsSortDescByResolved (scorecardBase assigneesTied 2025)
      [toSRow bobRow, toSRow aliceRow] ∧
    addRanks [toSRow bobRow, toSRow aliceRow] =
      [⟨1, toSRow bobRow⟩, ⟨2, toSRow aliceRow⟩] := by
  refine ⟨rfl, rfl, ?_, ⟨?_, ?_⟩, rfl⟩
  · intro h
    exact absurd (congrArg SRow.assignee h) (by decide)
  · exact List.Perm.swap (toSRow aliceRow) (toSRow bobRow) []
  · simp [List.sorted_cons, toSRow, aliceRow, bobRow]

/-- C4, amended: the ranked scorecard is a permutation of the slice ordered
by non-increasing `Total_Resolved` with ranks 1, 2, 3, … assigned in output
order; when the `Total_Resolved` values are pairwise distinct this output
is uniquely determined, while at ties the order is unspecified. -/
theorem ranking_policy (df : List AssigneeRow) (y : Int)
    (out₁ out₂ : List SRow)
    (h1 : IsSortDescByResolved (scorecardBase df y) out₁)
    (h2 : IsSortDescByResolved (scorecardBase df y) out₂)
    (hnd : ((scorecardBase df y).map (fun s => s.totalResolved)).Nodup) :
    out₁ = out₂ ∧
    (addRanks out₁).map (fun t => t.rank) = List.range' 1 out₁.length := by
  constructor
  · have hp : out₁.Perm out₂ := h1.1.trans h2.1.symm
    have hn1 : (out₁.map (fun s => s.totalResolved)).Nodup :=
      ((h1.1.map (fun s => s.totalResolved)).nodup_iff).mpr hnd
    have hn2 : (out₂.map (fun s => s.totalResolved)).Nodup :=
      ((h2.1.map (fun s => s.totalResolved)).nodup_iff).mpr hnd
    haveI : IsAntisymm SRow (fun a b => b.totalResolved < a.totalResolved) :=
      ⟨fun a b hab hba => absurd hab (not_lt_of_lt hba)⟩
    exact List.eq_of_perm_of_sorted hp (sorted_desc_strict h1.2 hn1)
      (sorted_desc_strict h2.2 hn2)
  · exact addRanksFrom_map_rank out₁ 1

/-- C4, witness of the amended theorem on a slice with distinct resolved
counts: the ranks come out 1, 2. -/
theorem ranking_policy_witness :
    (addRanks (scorecardBase assigneesDistinct 2025)).map (fun t => t.rank) =
      [1, 2] := by
  have h := (ranking_policy assigneesDistinct 2025
      (scorecardBase assigneesDistinct 2025)
      (scorecardBase assigneesDistinct 2025)
      ⟨List.Perm.refl _, by decide⟩ ⟨List.Perm.refl _, by decide⟩
      (by decide)).2
  rw [h]
  rfl

/-- C10, counterexample: with an "Unassigned" entity in both years and a
regular 2025 agent — so the filtered year slice is non-empty and the
guarded comparison section of the Team Scorecard view is actually
rendered — the displayed Most Improved table contains "Unassigned",
because the comparison is computed from the unfiltered assignee dataset;
this contradicts the claim that no output of the view contains
"Unassigned". -/
theorem comparison_contains_unassigned :
    (dfYear assigneesUnassigned 2025).isEmpty = false ∧
    Option.map (fun l => l.map (fun c => c.assignee))
      (mostImprovedView assigneesUnassigned 2025) = some ["Unassigned"] ∧
    ∃ c ∈ comparison assigneesUnassigned, c.assignee = "Unassigned" := by
  refine ⟨rfl, rfl, ?_⟩
  decide

/-- C10, amended: every computation derived from the filtered year slice —
the slice itself, the scorecard rows, and the ranked scorecard (hence the
top-performer selections drawn from it) — contains no "Unassigned" entity;
only the year-over-year comparison, built from the unfiltered dataset, can
contain it. -/
theorem scorecard_excludes_unassigned (df : List AssigneeRow) (y : Int)
    (out : List SRow)
    (hsort : IsSortDescByResolved (scorecardBase df y) out) :
    (∀ r ∈ dfYear df y, r.assignee ≠ "Unassigned") ∧
    (∀ s ∈ scorecardBase df y, s.assignee ≠ "Unassigned") ∧
    (∀ t ∈ addRanks out, t.row.assignee ≠ "Unassigned") := by
  have h1 : ∀ r ∈ dfYear df y, r.assignee ≠ "Unassigned" := by
    intro r hr
    simp only [dfYear, List.mem_filter, decide_eq_true_eq] at hr
    simpa using hr.2
  have h2 : ∀ s ∈ scorecardBase df y, s.assignee ≠ "Unassigned" := by
    intro s hs
    obtain ⟨r, hr, rfl⟩ := List.mem_map.1 hs
    exact h1 r hr
  refine ⟨h1, h2, ?_⟩
  intro t ht
  have hrow : t.row ∈ out := row_mem_of_mem_addRanksFrom out 1 t ht
  exact h2 t.row (hsort.1.subset hrow)

/-- C10, witness of the amended theorem at a concrete slice row. -/
theorem scorecard_excludes_unassigned_witness :
    (⟨"Alice", 2025, 12, 10, 3, 90, 20⟩ : AssigneeRow).assignee ≠
      "Unassigned" :=
  (scorecard_excludes_unassigned assigneesDistinct 2025
      (scorecardBase assigneesDistinct 2025)
      ⟨List.Perm.refl _, by decide⟩).1
    ⟨"Alice", 2025, 12, 10, 3, 90, 20⟩ (by decide)


/-- The groupby keys are distinct. -/
theorem groupKeys_nodup (df : List MonthlyRow) : (groupKeys df).Nodup :=
  ((List.perm_insertionSort keyLE _).nodup_iff).mpr (List.nodup_dedup _)

/-- A pair is a groupby key exactly when some row carries it. -/
theorem mem_groupKeys (df : List MonthlyRow) (p : String × Int) :
    p ∈ groupKeys df ↔ ∃ r ∈ df, r.month = p.1 ∧ r.year = p.2 := by
  rw [groupKeys, (List.perm_insertionSort keyLE _).mem_iff, List.mem_dedup,
    List.mem_map]
  constructor
  · rintro ⟨r, hr, rfl⟩
    exact ⟨r, hr, rfl, rfl⟩
  · rintro ⟨r, hr, h1, h2⟩
    exact ⟨r, hr, by cases p; simp_all⟩

/-- The year-`y` group keys are, up to order, the distinct months of the
year slice paired with `y`. -/
theorem keysY_perm (df : List MonthlyRow) (y : Int) :
    ((groupKeys df).filter (fun k => k.2 = y)).Perm
      ((((df.filter (fun r => r.year = y)).map
        (fun r => r.month)).dedup).map (fun m => (m, y))) := by
  apply (List.perm_ext_iff_of_nodup ?nd1 ?nd2).mpr
  case nd1 => exact (groupKeys_nodup df).filter _
  case nd2 =>
    exact (List.nodup_dedup _).map (fun a b h => (Prod.mk.injEq _ _ _ _ ▸ h).1)
  intro p
  simp only [List.mem_filter, mem_groupKeys, List.mem_map, List.mem_dedup,
    decide_eq_true_eq]
  constructor
  · rintro ⟨⟨r, hr, h1, h2⟩, hy⟩
    exact ⟨p.1, ⟨r, ⟨hr, by rw [h2, hy]⟩, h1⟩, by cases p; simp_all⟩
  · rintro ⟨m, ⟨r, ⟨hr, hry⟩, h1⟩, rfl⟩
    exact ⟨⟨r, hr, h1, hry⟩, rfl⟩

/-- Filtering the aggregated frame to year `y` is filtering the keys to
year `y` first. -/
theorem filter_year_filterMap (df : List MonthlyRow) (y : Int) :
    ∀ ks : List (String × Int),
      ((ks.filterMap (aggOf df)).filter (fun r => r.year = y)) =
        (ks.filter (fun k => k.2 = y)).filterMap (aggOf df) := by
  intro ks
  induction ks with
  | nil => rfl
  | cons k ks ih =>
    by_cases hy : k.2 = y
    · cases h : monthNum? k.1 with
      | none => simp [aggOf, h, hy, ih]
      | some n => simp [aggOf, h, hy, ih]
    · cases h : monthNum? k.1 with
      | none => simp [aggOf, h, hy, ih]
      | some n => simp [aggOf, h, hy, ih]

/-- A list sorted by non-decreasing month index with pairwise-distinct
indices is sorted strictly. -/
theorem sorted_asc_strict {l : List AggRow}
    (hs : l.Sorted aggLE)
    (hn : (l.map (fun r => r.monthNum)).Nodup) :
    l.Sorted (fun a b => a.monthNum < b.monthNum) := by
  have hne : l.Pairwise (fun a b => a.monthNum ≠ b.monthNum) := by
    rw [List.Nodup, List.pairwise_map] at hn
    exact hn
  exact (hs.and hne).imp (fun h => lt_of_le_of_ne h.1 h.2)

/-- C6: any permissible output of the backlog pipeline — the grouped,
year-filtered frame put in any order compatible with
`sort_values("Month_Num")` and then cumulatively summed — equals the
specification sequence: the running sum of per-month net change over the
year months ordered ascending by embedded month index.  In particular the
result does not depend on the sort tie behaviour (the month indices being
distinct) and recomputation yields the identical sequence. -/
theorem cumulativeBacklog_eq_spec (df : List MonthlyRow) (y : Int)
    (agg sorted : List AggRow)
    (hagg : monthlyAgg df = some agg)
    (hsort : IsSortAscByMonthNum (agg.filter (fun r => r.year = y)) sorted)
    (hnd : ((agg.filter (fun r => r.year = y)).map
      (fun r => r.monthNum)).Nodup) :
    cumsum (sorted.map netChange) = backlogSpec df y ∧
    cumulativeBacklog agg y = backlogSpec df y := by
  -- recover the filterMap shape of the aggregated frame
  have hagg2 : agg = (groupKeys df).filterMap (aggOf df) := by
    by_cases hall : (groupKeys df).all (fun k => (monthNum? k.1).isSome)
    · simp [monthlyAgg, hall] at hagg
      exact hagg.symm
    · simp [monthlyAgg, hall] at hagg
  subst hagg2
  -- the year slice of the frame is a permutation of the spec entries
  set months := ((df.filter (fun r => r.year = y)).map
    (fun r => r.month)).dedup with hm
  have hentries :
      months.filterMap (fun m => aggOf df (m, y)) =
        (months.map (fun m => (m, y))).filterMap (aggOf df) := by
    rw [List.filterMap_map]
    rfl
  have hL :
      (((groupKeys df).filterMap (aggOf df)).filter
          (fun r => r.year = y)).Perm
        (months.filterMap (fun m => aggOf df (m, y))) := by
    rw [filter_year_filterMap df y, hentries]
    exact (keysY_perm df y).filterMap (aggOf df)
  -- entries of backlogSpec are exactly that filterMap
  have hspec : backlogSpec df y =
      cumsum ((List.insertionSort aggLE
        (months.filterMap (fun m => aggOf df (m, y)))).map netChange) := rfl
  -- the two sorted lists are equal
  have hperm : sorted.Perm
      (List.insertionSort aggLE
        (months.filterMap (fun m => aggOf df (m, y)))) :=
    (hsort.1.trans hL).trans (List.perm_insertionSort aggLE _).symm
  have hnd2 : (sorted.map (fun r => r.monthNum)).Nodup :=
    ((hsort.1.map (fun r => r.monthNum)).nodup_iff).mpr hnd
  have hnd3 : ((List.insertionSort aggLE
      (months.filterMap (fun m => aggOf df (m, y)))).map
        (fun r => r.monthNum)).Nodup :=
    ((hperm.map (fun r => r.monthNum)).nodup_iff).mp hnd2
  haveI : IsAntisymm AggRow (fun a b => a.monthNum < b.monthNum) :=
    ⟨fun a b hab hba => absurd hab (not_lt_of_lt hba)⟩
  have heq : sorted = List.insertionSort aggLE
      (months.filterMap (fun m => aggOf df (m, y))) :=
    List.eq_of_perm_of_sorted hperm
      (sorted_asc_strict hsort.2 hnd2)
      (sorted_asc_strict (List.sorted_insertionSort aggLE _) hnd3)
  constructor
  · rw [heq, hspec]
  · rw [hspec, cumulativeBacklog]
    have hs2 : IsSortAscByMonthNum
        ((((groupKeys df).filterMap (aggOf df)).filter
          (fun r => r.year = y)))
        (List.insertionSort aggLE
          (((groupKeys df).filterMap (aggOf df)).filter
            (fun r => r.year = y))) :=
      ⟨List.perm_insertionSort aggLE _, List.sorted_insertionSort aggLE _⟩
    -- reuse the equality argument for the executable sort
    have hperm2 : (List.insertionSort aggLE
        (((groupKeys df).filterMap (aggOf df)).filter
          (fun r => r.year = y))).Perm
        (List.insertionSort aggLE
          (months.filterMap (fun m => aggOf df (m, y)))) :=
      ((List.perm_insertionSort aggLE _).trans hL).trans
        (List.perm_insertionSort aggLE _).symm
    have hnd2b : ((List.insertionSort aggLE
        (((groupKeys df).filterMap (aggOf df)).filter
          (fun r => r.year = y))).map (fun r => r.monthNum)).Nodup :=
      (((List.perm_insertionSort aggLE _).map
        (fun r => r.monthNum)).nodup_iff).mpr hnd
    have heq2 : List.insertionSort aggLE
        (((groupKeys df).filterMap (aggOf df)).filter
          (fun r => r.year = y)) =
        List.insertionSort aggLE
          (months.filterMap (fun m => aggOf df (m, y))) :=
      List.eq_of_perm_of_sorted hperm2
        (sorted_asc_strict (List.sorted_insertionSort aggLE _) hnd2b)
        (sorted_asc_strict (List.sorted_insertionSort aggLE _) hnd3)
    rw [heq2]

/-- C6, witness on a concrete monthly dataset with a duplicated month:
the 2024 backlog sequence is the prefix sum [4, 6]. -/
theorem cumulativeBacklog_eq_spec_witness :
    cumsum (([⟨"2024-01", 2024, 6, 2, 1⟩, ⟨"2024-02", 2024, 5, 3, 2⟩] :
      List AggRow).map netChange) = backlogSpec monthlySample 2024 ∧
    backlogSpec monthlySample 2024 = [4, 6] :=
  ⟨(cumulativeBacklog_eq_spec monthlySample 2024
      [⟨"2024-01", 2024, 6, 2, 1⟩, ⟨"2024-02", 2024, 5, 3, 2⟩,
       ⟨"2025-01", 2025, 7, 2, 1⟩]
      [⟨"2024-01", 2024, 6, 2, 1⟩, ⟨"2024-02", 2024, 5, 3, 2⟩]
      (by decide) (by decide) (by decide)).1, by decide⟩

end Khelp
